import Mathlib

/-!
Verification of the dynamic-plugin loading subsystem
(frontend/packages/console-dynamic-plugin-sdk/src/runtime/plugin-loader.ts).

The loader is modelled as a state machine. The module-level mutable state of
plugin-loader.ts (the pluginMap, the script elements appended to
document.head, and the stream of random cache-busting tokens) is collected in
an explicit LoaderState that every operation threads. Asynchronous promise
settlement is modelled by separate event functions (scriptOnload,
scriptOnError) applied to the state at the time the corresponding DOM event
fires. Collaborators that live outside the excerpted file (the plugin store,
the shared-module initializer, the code-reference resolver, manifest fetching
and dependency resolution) are parameters; calls to them are recorded as
explicit events so that claims about which collaborator is invoked when can
be stated and proved.
-/

/-- The plugin manifest: name, version and the list of extension
declarations. Extension declarations (encoded code references plus metadata)
are opaque to plugin-loader.ts, so they are kept abstract as strings. -/
structure ConsolePluginManifestJSON where
  name : String
  version : String
  extensions : List String
deriving DecidableEq

/-- Modelled from the spec: getPluginID (runtime/plugin-utils.ts, not part of
the excerpt) derives the plugin identifier deterministically from the
manifest, as the name plus the version; the spec's end-to-end scenario A
shows the concrete shape name@version (foo@1.0.0). -/
def getPluginID (m : ConsolePluginManifestJSON) : String :=
  m.name ++ "@" ++ m.version

/-- Modelled from the spec: remoteEntryFile (constants.ts, not part of the
excerpt) is the well-known entry filename resolved against the manifest base
URL. Its concrete value is irrelevant to every claim. -/
def remoteEntryFile : String := "plugin-entry.js"

/-- Modelled from the spec: getRandomChars (@console/shared utils, not part
of the excerpt) returns a fresh random token on every call. Randomness is
modelled by drawing from a per-state counter, with an injective encoding of
the counter into a string, so that distinct draws yield distinct tokens. -/
def getRandomChars (n : Nat) : String :=
  String.mk (List.replicate n 'r')

/-- Modelled from the spec: resolveURL (utils/url.ts, not part of the
excerpt) resolves the well-known entry-file path against the base URL and
applies the caller's modifier, which at the only call site sets the query
string to the cache-busting parameter. The model composes the three parts:
base URL, entry file name, query string. -/
def resolveURL (baseURL file query : String) : String :=
  baseURL ++ file ++ query

/-- Per-plugin record kept in the pluginMap (type ConsolePluginData in
plugin-loader.ts). -/
structure ConsolePluginData where
  manifest : ConsolePluginManifestJSON
  entryCallbackFired : Bool
deriving DecidableEq

/-- A script element appended to document.head by loadDynamicPlugin: its id
attribute and its src URL. -/
structure ScriptElement where
  id : String
  src : String
deriving DecidableEq

/-- The module-level mutable state of plugin-loader.ts: the pluginMap (an
insertion-ordered map, modelled as an association list with unique keys), the
script elements currently in the document, and the counter feeding the
random-token stream. -/
structure LoaderState where
  pluginMap : List (String × ConsolePluginData)
  scripts : List ScriptElement
  nextRandom : Nat
deriving DecidableEq

/-- pluginMap.get: first (and, keys being unique, only) entry with the given
key. -/
def mapGet : List (String × ConsolePluginData) → String → Option ConsolePluginData
  | [], _ => none
  | (k, d) :: rest, pluginID => if k = pluginID then some d else mapGet rest pluginID

/-- pluginMap.set: replace the entry with the given key, or append a new
entry (JavaScript Map.set semantics, keeping insertion order). -/
def mapSet : List (String × ConsolePluginData) → String → ConsolePluginData →
    List (String × ConsolePluginData)
  | [], pluginID, d => [(pluginID, d)]
  | (k, e) :: rest, pluginID, d =>
    if k = pluginID then (pluginID, d) :: rest else (k, e) :: mapSet rest pluginID d

/-- Array.from(pluginMap.values()).find((p) => p.manifest.name === name): the
first record whose manifest has the given name. -/
def findByName : List (String × ConsolePluginData) → String → Option ConsolePluginData
  | [], _ => none
  | (_, d) :: rest, name => if d.manifest.name = name then some d else findByName rest name

/-- pluginData.entryCallbackFired = true: in-place mutation of the record
retrieved by pluginMap.get, modelled as updating the entry at the key. -/
def markFired : List (String × ConsolePluginData) → String → List (String × ConsolePluginData)
  | [], _ => []
  | (k, d) :: rest, pluginID =>
    if k = pluginID then (k, { d with entryCallbackFired := true }) :: rest
    else (k, d) :: markFired rest pluginID

def scriptIDPrefixStr : String := "console-plugin"

/-- getScriptElementID from plugin-loader.ts. -/
def getScriptElementID (m : ConsolePluginManifestJSON) : String :=
  scriptIDPrefixStr ++ "-" ++ m.name

/-- The synchronous part of loadDynamicPlugin either rejects at once
(duplicate manifest name) or leaves a pending promise correlated with the
plugin identifier, having appended the script element. -/
inductive LoadStart where
  | rejected (message : String)
  | pending (pluginID : String) (scriptURL : String)
deriving DecidableEq

/-- loadDynamicPlugin from plugin-loader.ts, synchronous prefix: duplicate
check over existing records by manifest name; on success, insert the pending
record with entryCallbackFired = false, build the cache-busted script URL,
and append the script element. The promise settlement on load/error is
modelled separately by scriptOnload / scriptOnError. -/
def loadDynamicPlugin (baseURL : String) (manifest : ConsolePluginManifestJSON)
    (s : LoaderState) : LoaderState × LoadStart :=
  let pluginID := getPluginID manifest
  match findByName s.pluginMap manifest.name with
  | some existingPluginData =>
      (s, .rejected ("Attempt to reload plugin " ++ getPluginID existingPluginData.manifest ++
        " with " ++ pluginID))
  | none =>
      let scriptURL := resolveURL baseURL remoteEntryFile
        ("?cacheBuster=" ++ getRandomChars s.nextRandom)
      ({ pluginMap := mapSet s.pluginMap pluginID
           { manifest := manifest, entryCallbackFired := false },
         scripts := s.scripts ++ [{ id := getScriptElementID manifest, src := scriptURL }],
         nextRandom := s.nextRandom + 1 },
       .pending pluginID scriptURL)

/-- Outcome of the script element's load event: the promise resolves with the
plugin identifier, or rejects with the loaded-without-callback error. The
handler reads pluginMap.get(pluginID).entryCallbackFired without a presence
check; if the record is absent, the access throws a TypeError, modelled as
crash. -/
inductive OnloadOutcome where
  | resolved (pluginID : String)
  | rejectedNoCallback (message : String)
  | crash
deriving DecidableEq

/-- script.onload from loadDynamicPlugin. -/
def scriptOnload (pluginID : String) (s : LoaderState) : LoaderState × OnloadOutcome :=
  match mapGet s.pluginMap pluginID with
  | none => (s, .crash)
  | some d =>
    if d.entryCallbackFired then (s, .resolved pluginID)
    else (s, .rejectedNoCallback ("Entry script for plugin " ++ pluginID ++
      " loaded without callback"))

/-- script.onerror from loadDynamicPlugin: rejects with a message naming the
script URL, wrapping the DOM event; the state is untouched. -/
def scriptOnError (scriptURL : String) (s : LoaderState) : LoaderState × String :=
  (s, "Error while loading plugin entry script from " ++ scriptURL)

/-- The entry module namespace passed by plugin bundles to the global
callback; opaque to plugin-loader.ts, kept abstract. -/
abbrev RemoteEntryModule := String

/-- A call made to the PluginStore collaborator, recorded as an event. -/
inductive StoreCall where
  | addDynamicPlugin (pluginID : String) (manifest : ConsolePluginManifestJSON)
      (resolvedExtensions : List String)
  | setDynamicPluginEnabled (pluginID : String) (enabled : Bool)
deriving DecidableEq

/-- Everything observable about one invocation of the entry callback: the
state afterwards, the store calls made, whether the shared-module initializer
was invoked, and the console.error messages logged. -/
structure CallbackResult where
  state : LoaderState
  storeCalls : List StoreCall
  initSharedCalled : Bool
  logs : List String
deriving DecidableEq

/-- Steps 1-3 of the entry callback (the guards and the flag flip), split out
so that the state right after the flip — before the shared-module initializer
or anything later runs — is itself a LoaderState one can re-enter the
callback on. -/
inductive GuardResult where
  | unknownPlugin
  | alreadyFired
  | proceed (pluginData : ConsolePluginData) (flipped : LoaderState)
deriving DecidableEq

def entryCallbackGuard (pluginID : String) (s : LoaderState) : GuardResult :=
  match mapGet s.pluginMap pluginID with
  | none => .unknownPlugin
  | some pluginData =>
    if pluginData.entryCallbackFired then .alreadyFired
    else .proceed pluginData { s with pluginMap := markFired s.pluginMap pluginID }

/-- getPluginEntryCallback from plugin-loader.ts: partially applied to its
collaborators (the shared-module initializer, which may throw, modelled as
Except, and the code-reference resolver, a pure function of the extension
declarations, the entry module and the plugin identifier), it yields the
callback installed as window.loadPluginEntry. The pluginStore collaborator is
not a parameter here; the single addDynamicPlugin call it would receive is
recorded in storeCalls. -/
def getPluginEntryCallback
    (initSharedPluginModulesCallback : RemoteEntryModule → Except String Unit)
    (resolveEncodedCodeRefsCallback : List String → RemoteEntryModule → String → List String) :
    String → RemoteEntryModule → LoaderState → CallbackResult :=
  fun pluginID entryModule s =>
    match entryCallbackGuard pluginID s with
    | .unknownPlugin =>
        { state := s, storeCalls := [], initSharedCalled := false,
          logs := ["Received callback for unknown plugin " ++ pluginID] }
    | .alreadyFired =>
        { state := s, storeCalls := [], initSharedCalled := false,
          logs := ["Received callback for already loaded plugin " ++ pluginID] }
    | .proceed pluginData s1 =>
        match initSharedPluginModulesCallback entryModule with
        | .error _ =>
            { state := s1, storeCalls := [], initSharedCalled := true,
              logs := ["Failed to initialize shared modules for plugin " ++ pluginID] }
        | .ok _ =>
            { state := s1,
              storeCalls := [.addDynamicPlugin pluginID pluginData.manifest
                (resolveEncodedCodeRefsCallback pluginData.manifest.extensions
                  entryModule pluginID)],
              initSharedCalled := true,
              logs := [] }

/-- resetStateAndEnvForTestPurposes from plugin-loader.ts: clear the
pluginMap and remove every element whose id starts with the loader's script
id prefix. (The third effect, unsetting window.loadPluginEntry, concerns the
global binding, which is not part of LoaderState.) -/
def resetStateAndEnvForTestPurposes (s : LoaderState) : LoaderState :=
  { pluginMap := [],
    scripts := s.scripts.filter (fun element => !(element.id.startsWith scriptIDPrefixStr)),
    nextRandom := s.nextRandom }

/-- Collaborators of loadAndEnablePlugin, with the outcome each stage would
produce: fetchPluginManifest and resolvePluginDependencies (both from modules
outside the excerpt, consumed as async operations that succeed or fail) and
the awaited result of the loadDynamicPlugin promise. Errors are abstract
causes, kept as strings. -/
structure ActivationEnv where
  fetchPluginManifest : String → Except String ConsolePluginManifestJSON
  resolvePluginDependencies : ConsolePluginManifestJSON → Except String Unit
  loadDynamicPluginResult : String → ConsolePluginManifestJSON → Except String String

/-- One observable event of a loadAndEnablePlugin run: a stage being invoked,
the onError reporter being called, or the store being told to enable the
plugin. -/
inductive ActEvent where
  | fetchManifestCall (url : String)
  | resolveDependenciesCall (manifest : ConsolePluginManifestJSON)
  | injectCall (baseURL : String) (manifest : ConsolePluginManifestJSON)
  | onErrorCall (message : String) (cause : String)
  | setDynamicPluginEnabledCall (pluginID : String) (enabled : Bool)
deriving DecidableEq

/-- loadAndEnablePlugin from plugin-loader.ts, as the trace of events a run
produces: derive the manifest URL from the server base path, fetch the
manifest, resolve its dependencies, await script injection (using the
manifest URL as the base URL), then enable the plugin in the store; each
stage failure reports through onError and returns, so later stages never
run. -/
def loadAndEnablePlugin (basePath pluginName : String) (env : ActivationEnv) :
    List ActEvent :=
  let url := basePath ++ "api/plugins/" ++ pluginName ++ "/"
  match env.fetchPluginManifest url with
  | .error e =>
      [.fetchManifestCall url,
       .onErrorCall ("Failed to get a valid plugin manifest from " ++ url) e]
  | .ok manifest =>
    match env.resolvePluginDependencies manifest with
    | .error e =>
        [.fetchManifestCall url, .resolveDependenciesCall manifest,
         .onErrorCall ("Failed to resolve dependencies of plugin " ++ pluginName) e]
    | .ok _ =>
      match env.loadDynamicPluginResult url manifest with
      | .error e =>
          [.fetchManifestCall url, .resolveDependenciesCall manifest,
           .injectCall url manifest,
           .onErrorCall ("Failed to load entry script of plugin " ++ pluginName) e]
      | .ok _ =>
          [.fetchManifestCall url, .resolveDependenciesCall manifest,
           .injectCall url manifest,
           .setDynamicPluginEnabledCall (getPluginID manifest) true]

/-- Recognizer for onError events in an activation trace. -/
def isOnErrorCall : ActEvent → Bool
  | .onErrorCall _ _ => true
  | _ => false

/-- Recognizer for store calls in an activation trace. -/
def isStoreEvent : ActEvent → Bool
  | .setDynamicPluginEnabledCall _ _ => true
  | _ => false

/-! ### Sample values used by witnesses -/

def sampleManifest : ConsolePluginManifestJSON :=
  { name := "foo", version := "1.0.0", extensions := ["ref1"] }

def sampleManifest2 : ConsolePluginManifestJSON :=
  { name := "foo", version := "2.0.0", extensions := [] }

def sampleManifestBar : ConsolePluginManifestJSON :=
  { name := "bar", version := "1.0.0", extensions := [] }

def emptyLoaderState : LoaderState :=
  { pluginMap := [], scripts := [], nextRandom := 0 }

/-- The state after loading sampleManifest into the empty state. -/
def sampleS1 : LoaderState := (loadDynamicPlugin "/b/" sampleManifest emptyLoaderState).1

/-- The state after additionally loading sampleManifestBar. -/
def sampleT2 : LoaderState := (loadDynamicPlugin "/b/" sampleManifestBar sampleS1).1

/-- A state holding one pending record whose callback has not fired. -/
def sampleStateNotFired : LoaderState :=
  { pluginMap := [("foo@1.0.0", { manifest := sampleManifest, entryCallbackFired := false })],
    scripts := [], nextRandom := 1 }

/-- A state holding one record whose callback has fired. -/
def sampleStateFired : LoaderState :=
  { pluginMap := [("foo@1.0.0", { manifest := sampleManifest, entryCallbackFired := true })],
    scripts := [], nextRandom := 1 }

/-- A shared-module initializer that succeeds. -/
def sampleInitOk : RemoteEntryModule → Except String Unit := fun _ => .ok ()

/-- A shared-module initializer that throws. -/
def sampleInitFail : RemoteEntryModule → Except String Unit := fun _ => .error "init failed"

/-- A code-reference resolver that returns the extension declarations as the
resolved extensions. -/
def sampleResolveRefs : List String → RemoteEntryModule → String → List String :=
  fun extensions _ _ => extensions

/-- An activation environment whose manifest fetch rejects. -/
def envFetchFails : ActivationEnv :=
  { fetchPluginManifest := fun _ => .error "network down",
    resolvePluginDependencies := fun _ => .ok (),
    loadDynamicPluginResult := fun _ _ => .ok "" }

/-- An activation environment where every stage succeeds. -/
def envAllOk : ActivationEnv :=
  { fetchPluginManifest := fun _ => .ok sampleManifest,
    resolvePluginDependencies := fun _ => .ok (),
    loadDynamicPluginResult := fun _ m => .ok (getPluginID m) }

/-! ### Helper lemmas about the pluginMap operations -/

theorem findByName_mapSet_of_not_found (l : List (String × ConsolePluginData))
    (k : String) (d : ConsolePluginData) (n : String)
    (hnone : findByName l n = none) (hd : d.manifest.name = n) :
    findByName (mapSet l k d) n = some d := by
  induction l with
  | nil => simp [mapSet, findByName, hd]
  | cons hd0 tl ih =>
    obtain ⟨k0, e0⟩ := hd0
    rw [findByName] at hnone
    by_cases he : e0.manifest.name = n
    · simp [he] at hnone
    · rw [if_neg he] at hnone
      rw [mapSet]
      by_cases hk : k0 = k
      · simp only [hk, if_true]
        rw [findByName, if_pos hd]
      · simp only [hk, if_false]
        rw [findByName, if_neg he]
        exact ih hnone

theorem findByName_of_mapGet (l : List (String × ConsolePluginData))
    (k : String) (d : ConsolePluginData) (hget : mapGet l k = some d) :
    ∃ e, findByName l d.manifest.name = some e ∧ e.manifest.name = d.manifest.name := by
  induction l with
  | nil => simp [mapGet] at hget
  | cons hd0 tl ih =>
    obtain ⟨k0, e0⟩ := hd0
    rw [mapGet] at hget
    by_cases hk : k0 = k
    · rw [if_pos hk] at hget
      injection hget with hde
      subst hde
      exact ⟨e0, by rw [findByName, if_pos rfl], rfl⟩
    · rw [if_neg hk] at hget
      rw [findByName]
      by_cases he : e0.manifest.name = d.manifest.name
      · exact ⟨e0, by rw [if_pos he], he⟩
      · rw [if_neg he]
        exact ih hget

theorem mapGet_markFired (l : List (String × ConsolePluginData)) (k k' : String) :
    mapGet (markFired l k) k' =
      if k' = k then (mapGet l k').map (fun d => { d with entryCallbackFired := true })
      else mapGet l k' := by
  induction l with
  | nil => simp [markFired, mapGet]
  | cons hd0 tl ih =>
    obtain ⟨k0, e0⟩ := hd0
    rw [markFired]
    by_cases hk0 : k0 = k
    · subst hk0
      rw [if_pos rfl]
      by_cases hk' : k0 = k'
      · subst hk'
        simp [mapGet]
      · rw [mapGet, if_neg hk', if_neg (fun h => hk' h.symm), mapGet, if_neg hk']
    · rw [if_neg hk0]
      by_cases hk' : k0 = k'
      · subst hk'
        rw [mapGet, if_pos rfl, if_neg hk0, mapGet, if_pos rfl]
      · simp only [mapGet, ih, hk', if_false]

theorem loadDynamicPlugin_pending_inversion (baseURL : String)
    (m : ConsolePluginManifestJSON) (s s1 : LoaderState) (pid url : String)
    (h : loadDynamicPlugin baseURL m s = (s1, .pending pid url)) :
    findByName s.pluginMap m.name = none ∧
    pid = getPluginID m ∧
    url = resolveURL baseURL remoteEntryFile ("?cacheBuster=" ++ getRandomChars s.nextRandom) ∧
    s1 = { pluginMap := mapSet s.pluginMap (getPluginID m)
             { manifest := m, entryCallbackFired := false },
           scripts := s.scripts ++
             [{ id := getScriptElementID m,
                src := resolveURL baseURL remoteEntryFile
                  ("?cacheBuster=" ++ getRandomChars s.nextRandom) }],
           nextRandom := s.nextRandom + 1 } := by
  rw [loadDynamicPlugin] at h
  cases hfind : findByName s.pluginMap m.name with
  | some e =>
    rw [hfind] at h
    simp at h
  | none =>
    rw [hfind] at h
    simp only [Prod.mk.injEq, LoadStart.pending.injEq] at h
    exact ⟨rfl, h.2.1.symm, h.2.2.symm, h.1.symm⟩

theorem stringAppendCancelLeft {a b c : String} (h : a ++ b = a ++ c) : b = c := by
  have hd : a.data ++ b.data = a.data ++ c.data := by
    have := congrArg String.data h
    simpa [String.data_append] using this
  exact String.ext (List.append_cancel_left hd)

theorem getRandomChars_injective : Function.Injective getRandomChars := by
  intro a b h
  have h2 : List.replicate a 'r' = List.replicate b 'r' := congrArg String.data h
  have := congrArg List.length h2
  simpa using this

theorem entryCallbackGuard_proceed_inversion (pluginID : String) (s : LoaderState)
    (pd : ConsolePluginData) (s1 : LoaderState)
    (h : entryCallbackGuard pluginID s = .proceed pd s1) :
    mapGet s.pluginMap pluginID = some pd ∧ pd.entryCallbackFired = false ∧
    s1 = { s with pluginMap := markFired s.pluginMap pluginID } := by
  rw [entryCallbackGuard] at h
  cases hget : mapGet s.pluginMap pluginID with
  | none => rw [hget] at h; simp at h
  | some e =>
    rw [hget] at h
    dsimp only at h
    by_cases hf : e.entryCallbackFired
    · rw [if_pos hf] at h
      simp at h
    · rw [if_neg hf] at h
      simp only [GuardResult.proceed.injEq] at h
      obtain ⟨h1, h2⟩ := h
      subst h1
      exact ⟨rfl, by simpa using hf, h2.symm⟩

theorem entryCallbackGuard_of_not_fired (pluginID : String) (s : LoaderState)
    (d : ConsolePluginData) (hget : mapGet s.pluginMap pluginID = some d)
    (hnot : d.entryCallbackFired = false) :
    entryCallbackGuard pluginID s =
      .proceed d { s with pluginMap := markFired s.pluginMap pluginID } := by
  rw [entryCallbackGuard, hget]
  dsimp only
  rw [if_neg (by simp [hnot])]

theorem getPluginEntryCallback_state_cases
    (init : RemoteEntryModule → Except String Unit)
    (resolve : List String → RemoteEntryModule → String → List String)
    (pluginID : String) (em : RemoteEntryModule) (s : LoaderState) :
    (getPluginEntryCallback init resolve pluginID em s).state = s ∨
    (getPluginEntryCallback init resolve pluginID em s).state =
      { s with pluginMap := markFired s.pluginMap pluginID } := by
  simp only [getPluginEntryCallback]
  cases hg : entryCallbackGuard pluginID s with
  | unknownPlugin => exact Or.inl rfl
  | alreadyFired => exact Or.inl rfl
  | proceed pd s1 =>
    obtain ⟨-, -, hs1⟩ := entryCallbackGuard_proceed_inversion pluginID s pd s1 hg
    right
    cases hi : init em <;> simpa using hs1

/-! ### Claim theorems -/

/-- Claim C1: for any two manifests with the same name, if loadDynamicPlugin
for the first succeeded in inserting its pending record (the returned promise
is pending), a subsequent loadDynamicPlugin for the second manifest, before
any reset, rejects with the duplicate-plugin error and performs no side
effect: the resulting state is exactly the input state, so no registry entry
is inserted and no script element is appended. -/
theorem loadDynamicPlugin_duplicate_name_rejected
    (b1 b2 : String) (m1 m2 : ConsolePluginManifestJSON) (s s1 : LoaderState)
    (pid url : String)
    (hname : m1.name = m2.name)
    (h1 : loadDynamicPlugin b1 m1 s = (s1, .pending pid url)) :
    loadDynamicPlugin b2 m2 s1 =
      (s1, .rejected ("Attempt to reload plugin " ++ getPluginID m1 ++
        " with " ++ getPluginID m2)) := by
  obtain ⟨hfind, -, -, hs1⟩ := loadDynamicPlugin_pending_inversion b1 m1 s s1 pid url h1
  have hbase := findByName_mapSet_of_not_found s.pluginMap (getPluginID m1)
    { manifest := m1, entryCallbackFired := false } m1.name hfind rfl
  rw [hname] at hbase
  have hfind2 : findByName s1.pluginMap m2.name =
      some { manifest := m1, entryCallbackFired := false } := by
    rw [hs1]
    exact hbase
  rw [loadDynamicPlugin, hfind2]

/-- Claim C1 witness: loading sampleManifest2 (same name as sampleManifest)
after sampleManifest was loaded into the empty state is rejected with the
duplicate error, leaving the state untouched. -/
theorem loadDynamicPlugin_duplicate_name_rejected_witness :
    loadDynamicPlugin "/b/" sampleManifest2 sampleS1 =
      (sampleS1, .rejected ("Attempt to reload plugin " ++ getPluginID sampleManifest ++
        " with " ++ getPluginID sampleManifest2)) :=
  loadDynamicPlugin_duplicate_name_rejected "/b/" "/b/" sampleManifest sampleManifest2
    emptyLoaderState sampleS1 (getPluginID sampleManifest)
    (resolveURL "/b/" remoteEntryFile ("?cacheBuster=" ++ getRandomChars 0))
    (by decide) (by decide)

/-- Claim C7: every loadDynamicPlugin call draws a fresh cache-busting token,
so two calls with the same baseURL — even for the very same manifest — where
the second happens at or after the state produced by the first (its token
counter has not gone backwards; no operation ever decreases it) construct
distinct script resource URLs. -/
theorem loadDynamicPlugin_scriptURLs_distinct
    (b : String) (m1 m2 : ConsolePluginManifestJSON) (s1 s2 t1 t2 : LoaderState)
    (p1 u1 p2 u2 : String)
    (h1 : loadDynamicPlugin b m1 s1 = (t1, .pending p1 u1))
    (hle : t1.nextRandom ≤ s2.nextRandom)
    (h2 : loadDynamicPlugin b m2 s2 = (t2, .pending p2 u2)) :
    u1 ≠ u2 := by
  obtain ⟨-, -, hu1, ht1⟩ := loadDynamicPlugin_pending_inversion b m1 s1 t1 p1 u1 h1
  obtain ⟨-, -, hu2, -⟩ := loadDynamicPlugin_pending_inversion b m2 s2 t2 p2 u2 h2
  have hlt : s1.nextRandom < s2.nextRandom := by
    rw [ht1] at hle
    simp only at hle
    omega
  intro heq
  rw [hu1, hu2] at heq
  unfold resolveURL at heq
  have h3 := stringAppendCancelLeft heq
  have h4 := stringAppendCancelLeft h3
  have h5 := getRandomChars_injective h4
  omega

/-- Claim C7 witness: the URLs constructed by loading sampleManifest into the
empty state and then sampleManifestBar into the resulting state differ. -/
theorem loadDynamicPlugin_scriptURLs_distinct_witness :
    resolveURL "/b/" remoteEntryFile ("?cacheBuster=" ++ getRandomChars 0) ≠
    resolveURL "/b/" remoteEntryFile ("?cacheBuster=" ++ getRandomChars 1) :=
  loadDynamicPlugin_scriptURLs_distinct "/b/" sampleManifest sampleManifestBar
    emptyLoaderState sampleS1 sampleS1 sampleT2
    (getPluginID sampleManifest)
    (resolveURL "/b/" remoteEntryFile ("?cacheBuster=" ++ getRandomChars 0))
    (getPluginID sampleManifestBar)
    (resolveURL "/b/" remoteEntryFile ("?cacheBuster=" ++ getRandomChars 1))
    (by decide) (by decide) (by decide)

/-- Claim C4: when the injected script's load event fires, the promise
resolves with the plugin identifier if and only if the registry record's
entryCallbackFired flag is true at that moment; otherwise it rejects with the
callback-not-fired error. (Stated under the record-presence precondition; see
the companion claim about the unchecked access.) -/
theorem scriptOnload_resolves_iff_entryCallbackFired
    (pluginID : String) (s : LoaderState) (d : ConsolePluginData)
    (hget : mapGet s.pluginMap pluginID = some d) :
    (((scriptOnload pluginID s).2 = .resolved pluginID) ↔ d.entryCallbackFired = true) ∧
    (d.entryCallbackFired = false →
      (scriptOnload pluginID s).2 =
        .rejectedNoCallback ("Entry script for plugin " ++ pluginID ++
          " loaded without callback")) := by
  rw [scriptOnload, hget]
  dsimp only
  cases hf : d.entryCallbackFired <;> simp [hf]

/-- Claim C4 witness: in a state whose record has not fired, onload rejects
with the callback-not-fired error and does not resolve. -/
theorem scriptOnload_resolves_iff_entryCallbackFired_witness :
    (((scriptOnload "foo@1.0.0" sampleStateNotFired).2 = .resolved "foo@1.0.0") ↔
      ({ manifest := sampleManifest, entryCallbackFired := false } :
        ConsolePluginData).entryCallbackFired = true) ∧
    (({ manifest := sampleManifest, entryCallbackFired := false } :
        ConsolePluginData).entryCallbackFired = false →
      (scriptOnload "foo@1.0.0" sampleStateNotFired).2 =
        .rejectedNoCallback ("Entry script for plugin " ++ "foo@1.0.0" ++
          " loaded without callback")) :=
  scriptOnload_resolves_iff_entryCallbackFired "foo@1.0.0" sampleStateNotFired
    { manifest := sampleManifest, entryCallbackFired := false } (by decide)

/-- Claim C5: if the shared-module initializer throws during the entry
callback, addDynamicPlugin is never called (no store call at all), yet the
initializer was reached and the flag was already set, so a subsequent load
event still resolves with the plugin identifier. -/
theorem initShared_failure_no_store_still_resolves
    (init : RemoteEntryModule → Except String Unit)
    (resolve : List String → RemoteEntryModule → String → List String)
    (pluginID : String) (em : RemoteEntryModule) (s : LoaderState)
    (d : ConsolePluginData) (e : String)
    (hget : mapGet s.pluginMap pluginID = some d)
    (hnot : d.entryCallbackFired = false)
    (hinit : init em = .error e) :
    (getPluginEntryCallback init resolve pluginID em s).storeCalls = [] ∧
    (getPluginEntryCallback init resolve pluginID em s).initSharedCalled = true ∧
    (scriptOnload pluginID
        ((getPluginEntryCallback init resolve pluginID em s).state)).2 =
      .resolved pluginID := by
  have hguard := entryCallbackGuard_of_not_fired pluginID s d hget hnot
  have hm : mapGet (markFired s.pluginMap pluginID) pluginID =
      some { manifest := d.manifest, entryCallbackFired := true } := by
    rw [mapGet_markFired, if_pos rfl, hget]
    rfl
  simp only [getPluginEntryCallback, hguard, hinit]
  refine ⟨trivial, trivial, ?_⟩
  rw [scriptOnload]
  dsimp only
  rw [hm]
  simp

/-- Claim C5 witness: with a failing initializer on the not-fired sample
state, no store call is made, the initializer was reached, and onload on the
resulting state resolves. -/
theorem initShared_failure_no_store_still_resolves_witness :
    (getPluginEntryCallback sampleInitFail sampleResolveRefs "foo@1.0.0" "module"
      sampleStateNotFired).storeCalls = [] ∧
    (getPluginEntryCallback sampleInitFail sampleResolveRefs "foo@1.0.0" "module"
      sampleStateNotFired).initSharedCalled = true ∧
    (scriptOnload "foo@1.0.0"
        ((getPluginEntryCallback sampleInitFail sampleResolveRefs "foo@1.0.0" "module"
          sampleStateNotFired).state)).2 = .resolved "foo@1.0.0" :=
  initShared_failure_no_store_still_resolves sampleInitFail sampleResolveRefs
    "foo@1.0.0" "module" sampleStateNotFired
    { manifest := sampleManifest, entryCallbackFired := false } "init failed"
    (by decide) (by decide) rfl

/-- Claim C6: invoking the entry callback for a plugin identifier with no
record in the registry is a pure no-op at the public interface: the state is
unchanged, no store call is made, the initializer is not reached, and (the
function being total) no exception propagates; only the defensive log is
emitted. -/
theorem pluginEntryCallback_unknown_plugin_noop
    (init : RemoteEntryModule → Except String Unit)
    (resolve : List String → RemoteEntryModule → String → List String)
    (pluginID : String) (em : RemoteEntryModule) (s : LoaderState)
    (hget : mapGet s.pluginMap pluginID = none) :
    getPluginEntryCallback init resolve pluginID em s =
      { state := s, storeCalls := [], initSharedCalled := false,
        logs := ["Received callback for unknown plugin " ++ pluginID] } := by
  have hguard : entryCallbackGuard pluginID s = .unknownPlugin := by
    rw [entryCallbackGuard, hget]
  simp only [getPluginEntryCallback, hguard]

/-- Claim C6 witness: a callback for an identifier absent from the sample
state changes nothing. -/
theorem pluginEntryCallback_unknown_plugin_noop_witness :
    getPluginEntryCallback sampleInitOk sampleResolveRefs "ghost@9.9.9" "module"
      sampleStateNotFired =
      { state := sampleStateNotFired, storeCalls := [], initSharedCalled := false,
        logs := ["Received callback for unknown plugin " ++ "ghost@9.9.9"] } :=
  pluginEntryCallback_unknown_plugin_noop sampleInitOk sampleResolveRefs
    "ghost@9.9.9" "module" sampleStateNotFired (by decide)

/-- Claim C10: the onload handler reads the record's entryCallbackFired field
without a presence check, so it is safe only under the precondition that the
record is still registered when the load event fires: after a reset the
handler dereferences an absent record (crash), an absent record always
crashes, and a present record never does. -/
theorem scriptOnload_record_presence_precondition
    (pluginID : String) (s : LoaderState) :
    (scriptOnload pluginID (resetStateAndEnvForTestPurposes s)).2 = .crash ∧
    (mapGet s.pluginMap pluginID = none → (scriptOnload pluginID s).2 = .crash) ∧
    (∀ d, mapGet s.pluginMap pluginID = some d →
      (scriptOnload pluginID s).2 ≠ .crash) := by
  refine ⟨?_, ?_, ?_⟩
  · simp [scriptOnload, resetStateAndEnvForTestPurposes, mapGet]
  · intro h
    simp [scriptOnload, h]
  · intro d h
    rw [scriptOnload, h]
    dsimp only
    cases hf : d.entryCallbackFired <;> simp [hf]

/-- Claim C10 witness: after resetting the sample state the handler crashes
for the sample identifier; in the original state, where the record is
present, it does not crash. -/
theorem scriptOnload_record_presence_precondition_witness :
    (scriptOnload "foo@1.0.0"
      (resetStateAndEnvForTestPurposes sampleStateNotFired)).2 = .crash ∧
    (scriptOnload "foo@1.0.0" sampleStateNotFired).2 ≠ .crash :=
  ⟨(scriptOnload_record_presence_precondition "foo@1.0.0" sampleStateNotFired).1,
   (scriptOnload_record_presence_precondition "foo@1.0.0" sampleStateNotFired).2.2
     { manifest := sampleManifest, entryCallbackFired := false } (by decide)⟩

/-- Claim C3: for a plugin identifier with a pending (not-yet-fired) record,
the guard steps of the entry callback flip entryCallbackFired before any
further logic runs, producing the flipped state; the first invocation reaches
the shared-module initializer and finishes in that flipped state; and any
invocation for the same identifier on the flipped state — whether reentrant
(while later steps of the first invocation are still running) or a second
call after the first finished — is a no-op: state unchanged, no store call,
the initializer not reached. -/
theorem pluginEntryCallback_second_invocation_noop
    (init : RemoteEntryModule → Except String Unit)
    (resolve : List String → RemoteEntryModule → String → List String)
    (pluginID : String) (em1 em2 : RemoteEntryModule)
    (s : LoaderState) (d : ConsolePluginData)
    (hget : mapGet s.pluginMap pluginID = some d)
    (hnot : d.entryCallbackFired = false) :
    entryCallbackGuard pluginID s =
      .proceed d { s with pluginMap := markFired s.pluginMap pluginID } ∧
    (getPluginEntryCallback init resolve pluginID em1 s).state =
      { s with pluginMap := markFired s.pluginMap pluginID } ∧
    (getPluginEntryCallback init resolve pluginID em1 s).initSharedCalled = true ∧
    getPluginEntryCallback init resolve pluginID em2
        { s with pluginMap := markFired s.pluginMap pluginID } =
      { state := { s with pluginMap := markFired s.pluginMap pluginID },
        storeCalls := [], initSharedCalled := false,
        logs := ["Received callback for already loaded plugin " ++ pluginID] } := by
  have hguard := entryCallbackGuard_of_not_fired pluginID s d hget hnot
  have hm : mapGet (markFired s.pluginMap pluginID) pluginID =
      some { manifest := d.manifest, entryCallbackFired := true } := by
    rw [mapGet_markFired, if_pos rfl, hget]
    rfl
  have hguard2 : entryCallbackGuard pluginID
      { s with pluginMap := markFired s.pluginMap pluginID } = .alreadyFired := by
    rw [entryCallbackGuard]
    dsimp only
    rw [hm]
    simp
  refine ⟨hguard, ?_, ?_, ?_⟩
  · simp only [getPluginEntryCallback, hguard]
    cases hi : init em1 <;> simp
  · simp only [getPluginEntryCallback, hguard]
    cases hi : init em1 <;> simp
  · simp only [getPluginEntryCallback, hguard2]

/-- Claim C3 witness: on the not-fired sample state, the guard flips the
flag, the first invocation reaches the initializer and lands in the flipped
state, and a reinvocation on the flipped state is a logged no-op. -/
theorem pluginEntryCallback_second_invocation_noop_witness :
    entryCallbackGuard "foo@1.0.0" sampleStateNotFired =
      .proceed { manifest := sampleManifest, entryCallbackFired := false }
        { sampleStateNotFired with
            pluginMap := markFired sampleStateNotFired.pluginMap "foo@1.0.0" } ∧
    (getPluginEntryCallback sampleInitOk sampleResolveRefs "foo@1.0.0" "module"
      sampleStateNotFired).state =
      { sampleStateNotFired with
          pluginMap := markFired sampleStateNotFired.pluginMap "foo@1.0.0" } ∧
    (getPluginEntryCallback sampleInitOk sampleResolveRefs "foo@1.0.0" "module"
      sampleStateNotFired).initSharedCalled = true ∧
    getPluginEntryCallback sampleInitOk sampleResolveRefs "foo@1.0.0" "module2"
        { sampleStateNotFired with
            pluginMap := markFired sampleStateNotFired.pluginMap "foo@1.0.0" } =
      { state := { sampleStateNotFired with
            pluginMap := markFired sampleStateNotFired.pluginMap "foo@1.0.0" },
        storeCalls := [], initSharedCalled := false,
        logs := ["Received callback for already loaded plugin " ++ "foo@1.0.0"] } :=
  pluginEntryCallback_second_invocation_noop sampleInitOk sampleResolveRefs
    "foo@1.0.0" "module" "module2" sampleStateNotFired
    { manifest := sampleManifest, entryCallbackFired := false }
    (by decide) (by decide)

/-- Claim C8: once a record is in the registry, no failure path removes it:
the entry callback (whatever the collaborators do) keeps a record for the
same key with the same manifest, the script load / load-without-callback
handlers never change the state, a retry for the same manifest name is
rejected with the state unchanged, and only the explicit reset empties the
registry. -/
theorem pluginMap_record_persists_until_reset
    (s : LoaderState) (pluginID : String) (d : ConsolePluginData)
    (hget : mapGet s.pluginMap pluginID = some d) :
    (∀ init resolve id2 em, ∃ d2,
       mapGet ((getPluginEntryCallback init resolve id2 em s).state).pluginMap pluginID =
         some d2 ∧ d2.manifest = d.manifest) ∧
    (∀ id2, (scriptOnload id2 s).1 = s) ∧
    (∀ u, (scriptOnError u s).1 = s) ∧
    (∀ b m, m.name = d.manifest.name →
       ∃ msg, loadDynamicPlugin b m s = (s, .rejected msg)) ∧
    (resetStateAndEnvForTestPurposes s).pluginMap = [] := by
  refine ⟨?_, ?_, ?_, ?_, rfl⟩
  · intro init resolve id2 em
    rcases getPluginEntryCallback_state_cases init resolve id2 em s with h | h
    · exact ⟨d, by rw [h]; exact hget, rfl⟩
    · by_cases hid : pluginID = id2
      · refine ⟨{ manifest := d.manifest, entryCallbackFired := true }, ?_, rfl⟩
        rw [h]
        dsimp only
        rw [mapGet_markFired, if_pos hid, hget]
        rfl
      · refine ⟨d, ?_, rfl⟩
        rw [h]
        dsimp only
        rw [mapGet_markFired, if_neg hid]
        exact hget
  · intro id2
    cases hg : mapGet s.pluginMap id2 with
    | none => simp [scriptOnload, hg]
    | some d2 =>
      rw [scriptOnload, hg]
      dsimp only
      cases hf : d2.entryCallbackFired <;> simp [hf]
  · intro u
    rfl
  · intro b m hname
    obtain ⟨e, he, -⟩ := findByName_of_mapGet s.pluginMap pluginID d hget
    refine ⟨"Attempt to reload plugin " ++ getPluginID e.manifest ++ " with " ++
      getPluginID m, ?_⟩
    simp only [loadDynamicPlugin, hname, he]

/-- Claim C8 witness: in the not-fired sample state, the record survives an
entry callback, a same-name reload is rejected with the state unchanged, and
the reset empties the registry. -/
theorem pluginMap_record_persists_until_reset_witness :
    (∃ d2, mapGet ((getPluginEntryCallback sampleInitOk sampleResolveRefs "foo@1.0.0"
        "module" sampleStateNotFired).state).pluginMap "foo@1.0.0" = some d2 ∧
      d2.manifest = sampleManifest) ∧
    (∃ msg, loadDynamicPlugin "/b/" sampleManifest2 sampleStateNotFired =
      (sampleStateNotFired, .rejected msg)) ∧
    (resetStateAndEnvForTestPurposes sampleStateNotFired).pluginMap = [] :=
  ⟨(pluginMap_record_persists_until_reset sampleStateNotFired "foo@1.0.0"
      { manifest := sampleManifest, entryCallbackFired := false } (by decide)).1
      sampleInitOk sampleResolveRefs "foo@1.0.0" "module",
   (pluginMap_record_persists_until_reset sampleStateNotFired "foo@1.0.0"
      { manifest := sampleManifest, entryCallbackFired := false } (by decide)).2.2.2.1
      "/b/" sampleManifest2 (by decide),
   (pluginMap_record_persists_until_reset sampleStateNotFired "foo@1.0.0"
      { manifest := sampleManifest, entryCallbackFired := false } (by decide)).2.2.2.2⟩

/-- Claim C2: loadAndEnablePlugin is a strict linear pipeline. Each of the
three fallible stages, on failure, produces exactly the trace ending in a
single onError event carrying a human-readable message and the underlying
cause, with no later-stage event and no store call; in particular, when the
manifest fetch rejects, the trace is just the fetch attempt plus one onError
whose message contains the fetch URL, so dependency resolution, script
injection, and the store are never reached. Across every environment the
trace has at most one onError event, and whenever it has one the store
receives no call. -/
theorem loadAndEnablePlugin_stage_failure_aborts (basePath pluginName : String)
    (env : ActivationEnv) :
    (∀ e, env.fetchPluginManifest (basePath ++ "api/plugins/" ++ pluginName ++ "/") =
        .error e →
      loadAndEnablePlugin basePath pluginName env =
        [.fetchManifestCall (basePath ++ "api/plugins/" ++ pluginName ++ "/"),
         .onErrorCall ("Failed to get a valid plugin manifest from " ++
           (basePath ++ "api/plugins/" ++ pluginName ++ "/")) e]) ∧
    (∀ m e, env.fetchPluginManifest (basePath ++ "api/plugins/" ++ pluginName ++ "/") =
        .ok m →
      env.resolvePluginDependencies m = .error e →
      loadAndEnablePlugin basePath pluginName env =
        [.fetchManifestCall (basePath ++ "api/plugins/" ++ pluginName ++ "/"),
         .resolveDependenciesCall m,
         .onErrorCall ("Failed to resolve dependencies of plugin " ++ pluginName) e]) ∧
    (∀ m e, env.fetchPluginManifest (basePath ++ "api/plugins/" ++ pluginName ++ "/") =
        .ok m →
      env.resolvePluginDependencies m = .ok () →
      env.loadDynamicPluginResult (basePath ++ "api/plugins/" ++ pluginName ++ "/") m =
        .error e →
      loadAndEnablePlugin basePath pluginName env =
        [.fetchManifestCall (basePath ++ "api/plugins/" ++ pluginName ++ "/"),
         .resolveDependenciesCall m,
         .injectCall (basePath ++ "api/plugins/" ++ pluginName ++ "/") m,
         .onErrorCall ("Failed to load entry script of plugin " ++ pluginName) e]) ∧
    List.countP isOnErrorCall (loadAndEnablePlugin basePath pluginName env) ≤ 1 ∧
    (0 < List.countP isOnErrorCall (loadAndEnablePlugin basePath pluginName env) →
      List.countP isStoreEvent (loadAndEnablePlugin basePath pluginName env) = 0) := by
  refine ⟨?_, ?_, ?_, ?_, ?_⟩
  · intro e hf
    simp only [loadAndEnablePlugin, hf]
  · intro m e hf hd
    simp only [loadAndEnablePlugin, hf, hd]
  · intro m e hf hd hi
    simp only [loadAndEnablePlugin, hf, hd, hi]
  · cases hf : env.fetchPluginManifest (basePath ++ "api/plugins/" ++ pluginName ++ "/") with
    | error e => simp [loadAndEnablePlugin, hf, isOnErrorCall]
    | ok m =>
      cases hd : env.resolvePluginDependencies m with
      | error e => simp [loadAndEnablePlugin, hf, hd, isOnErrorCall]
      | ok u =>
        cases u
        cases hi : env.loadDynamicPluginResult
            (basePath ++ "api/plugins/" ++ pluginName ++ "/") m with
        | error e => simp [loadAndEnablePlugin, hf, hd, hi, isOnErrorCall]
        | ok pid => simp [loadAndEnablePlugin, hf, hd, hi, isOnErrorCall]
  · cases hf : env.fetchPluginManifest (basePath ++ "api/plugins/" ++ pluginName ++ "/") with
    | error e => simp [loadAndEnablePlugin, hf, isOnErrorCall, isStoreEvent]
    | ok m =>
      cases hd : env.resolvePluginDependencies m with
      | error e => simp [loadAndEnablePlugin, hf, hd, isOnErrorCall, isStoreEvent]
      | ok u =>
        cases u
        cases hi : env.loadDynamicPluginResult
            (basePath ++ "api/plugins/" ++ pluginName ++ "/") m with
        | error e => simp [loadAndEnablePlugin, hf, hd, hi, isOnErrorCall, isStoreEvent]
        | ok pid => simp [loadAndEnablePlugin, hf, hd, hi, isOnErrorCall, isStoreEvent]

/-- Claim C2 witness: with a failing manifest fetch, the run is exactly the
fetch attempt followed by the single onError report carrying the URL in its
message and the cause. -/
theorem loadAndEnablePlugin_stage_failure_aborts_witness :
    loadAndEnablePlugin "/" "foo" envFetchFails =
      [.fetchManifestCall ("/" ++ "api/plugins/" ++ "foo" ++ "/"),
       .onErrorCall ("Failed to get a valid plugin manifest from " ++
         ("/" ++ "api/plugins/" ++ "foo" ++ "/")) "network down"] :=
  (loadAndEnablePlugin_stage_failure_aborts "/" "foo" envFetchFails).1 "network down" rfl

/-- Claim C9: every run fetches the manifest from the URL formed by
concatenating the configured base path, the api/plugins/ segment, the plugin
name, and a trailing slash; and when the first two stages succeed, script
injection is invoked with that very same URL as its base URL. -/
theorem loadAndEnablePlugin_manifest_url (basePath pluginName : String)
    (env : ActivationEnv) :
    ActEvent.fetchManifestCall (basePath ++ "api/plugins/" ++ pluginName ++ "/") ∈
      loadAndEnablePlugin basePath pluginName env ∧
    (∀ m, env.fetchPluginManifest (basePath ++ "api/plugins/" ++ pluginName ++ "/") =
        .ok m →
      env.resolvePluginDependencies m = .ok () →
      ActEvent.injectCall (basePath ++ "api/plugins/" ++ pluginName ++ "/") m ∈
        loadAndEnablePlugin basePath pluginName env) := by
  constructor
  · cases hf : env.fetchPluginManifest (basePath ++ "api/plugins/" ++ pluginName ++ "/") with
    | error e => simp [loadAndEnablePlugin, hf]
    | ok m =>
      cases hd : env.resolvePluginDependencies m with
      | error e => simp [loadAndEnablePlugin, hf, hd]
      | ok u =>
        cases u
        cases hi : env.loadDynamicPluginResult
            (basePath ++ "api/plugins/" ++ pluginName ++ "/") m with
        | error e => simp [loadAndEnablePlugin, hf, hd, hi]
        | ok pid => simp [loadAndEnablePlugin, hf, hd, hi]
  · intro m hf hd
    cases hi : env.loadDynamicPluginResult
        (basePath ++ "api/plugins/" ++ pluginName ++ "/") m with
    | error e => simp [loadAndEnablePlugin, hf, hd, hi]
    | ok pid => simp [loadAndEnablePlugin, hf, hd, hi]

/-- Claim C9 witness: with the all-success environment, the run for plugin
foo under base path / fetches from /api/plugins/foo/ and injects with that
same URL as base. -/
theorem loadAndEnablePlugin_manifest_url_witness :
    ActEvent.fetchManifestCall ("/" ++ "api/plugins/" ++ "foo" ++ "/") ∈
      loadAndEnablePlugin "/" "foo" envAllOk ∧
    ActEvent.injectCall ("/" ++ "api/plugins/" ++ "foo" ++ "/") sampleManifest ∈
      loadAndEnablePlugin "/" "foo" envAllOk :=
  ⟨(loadAndEnablePlugin_manifest_url "/" "foo" envAllOk).1,
   (loadAndEnablePlugin_manifest_url "/" "foo" envAllOk).2 sampleManifest rfl rfl⟩
